import Mathlib

/-!
Shallow embedding of the Vellume edge API entitlement core
(`handleGetUserMe`, `handleImageUpload`, `handleCloudGeneration`,
`handleStripeWebhook` checkout branch) from the Cloudflare Worker source.

Modelling conventions:
* Epoch-millisecond timestamps are `Int` (`Date.now()` values).
* The D1 tables touched by the claims are modelled as lists:
  `usage_tracking` as a `List UsageEvent` (append-only ledger) and
  `subscriptions` as a `List SubscriptionRow` (unique on `userId`).
* `COUNT(*) ... WHERE` queries become `List.filter` + `List.length`.
* Randomly generated row ids (`crypto.randomUUID()`) are passed in as an
  opaque `freshId : String` parameter; no query in scope inspects them.
* A handler's observable outcome is its error code (if any), HTTP status,
  and the list of `usage_tracking` rows it inserted.  R2 object writes and
  `entry` row updates are not represented: no claim mentions them and they
  do not feed back into any modelled query.
* JavaScript string truthiness (`if (!x)`) is modelled on `Option String`:
  `undefined`/missing is `none`, and the empty string is falsy.
-/

/-- A row of the `usage_tracking` table: `(id, user_id, action, created_at)`. -/
structure UsageEvent where
  id : String
  userId : String
  action : String
  createdAt : Int
deriving DecidableEq, Repr

/-- A row of the `subscriptions` table (fields relevant to the handlers). -/
structure SubscriptionRow where
  id : String
  userId : String
  stripeCustomerId : Option String
  stripeSubscriptionId : Option String
  plan : String
  status : String
  currentPeriodEnd : Option Int
  createdAt : Int
  updatedAt : Int
deriving DecidableEq, Repr

/-- JavaScript falsiness of an optional string: missing or empty. -/
def strFalsy : Option String → Bool
  | none => true
  | some s => s == ""

/-- JavaScript truthiness of an optional string. -/
def strTruthy (o : Option String) : Bool := !(strFalsy o)

/-- The query `SELECT status FROM subscriptions WHERE user_id = ?` followed by
`.first()`; `user_id` is unique, so the first matching row is the row. -/
def subscriptionStatusOf (store : List SubscriptionRow) (userId : String) :
    Option String :=
  (store.find? (fun row => row.userId == userId)).map (fun row => row.status)

/-- The count used by `handleGetUserMe` and `handleImageUpload`:
`SELECT COUNT(*) FROM usage_tracking WHERE user_id = ? AND
action = 'image_generated' AND created_at > ?` (strict inequality as in the
SQL; `weekAgo` is the bound parameter). -/
def countImageGeneratedSince (ledger : List UsageEvent) (userId : String)
    (weekAgo : Int) : Nat :=
  (ledger.filter (fun e =>
    e.userId == userId && e.action == "image_generated" &&
      decide (e.createdAt > weekAgo))).length

/-- The count used by `handleCloudGeneration`:
`SELECT COUNT(*) FROM usage_tracking WHERE user_id = ? AND
(action = 'image_generated' OR action = 'cloud_image_generated') AND
created_at > ?`. -/
def countQualifyingSince (ledger : List UsageEvent) (userId : String)
    (weekAgo : Int) : Nat :=
  (ledger.filter (fun e =>
    e.userId == userId &&
      (e.action == "image_generated" || e.action == "cloud_image_generated") &&
      decide (e.createdAt > weekAgo))).length

/-- Observable outcome of an image handler: the error code (`none` on
success), the HTTP status, and the `usage_tracking` rows inserted. -/
structure HandlerResult where
  errorCode : Option String
  status : Nat
  appended : List UsageEvent
deriving DecidableEq, Repr

/-- The parsed multipart form of `POST /api/images/upload`. -/
structure UploadForm where
  hasImage : Bool
  entryId : Option String
deriving DecidableEq, Repr

/-- The `usage` object computed by `handleGetUserMe` (authenticated case):
`images_this_week` and `limit` (999 sentinel when premium, else 3). -/
def userMeUsage (store : List SubscriptionRow) (ledger : List UsageEvent)
    (userId : String) (nowMs : Int) : Nat × Nat :=
  let imagesThisWeek := countImageGeneratedSince ledger userId (nowMs - 604800000)
  let isPremium := subscriptionStatusOf store userId == some "active"
  (imagesThisWeek, if isPremium then 999 else 3)

/-- `handleImageUpload` after authentication: premium check, weekly quota
gate for free users (limit 3, count over `image_generated` rows strictly
newer than `now - 604800000`), then form validation, then on success one
`usage_tracking` insert with action `image_generated`. -/
def handleImageUpload (store : List SubscriptionRow) (ledger : List UsageEvent)
    (userId : String) (nowMs : Int) (form : UploadForm) (freshId : String) :
    HandlerResult :=
  let isPremium := subscriptionStatusOf store userId == some "active"
  if isPremium = false ∧
      3 ≤ countImageGeneratedSince ledger userId (nowMs - 604800000) then
    ⟨some "LIMIT_REACHED", 403, []⟩
  else if form.hasImage = false then
    ⟨some "MISSING_IMAGE", 400, []⟩
  else
    ⟨none, 200, [⟨freshId, userId, "image_generated", nowMs⟩]⟩

/-- The JSON body of `POST /api/images/generate-cloud`; `none` at the top
level models a body that fails to parse as JSON. -/
structure CloudBody where
  entryText : Option String
  journalId : Option String
  style : Option String
deriving DecidableEq, Repr

/-- The `STYLE_PRESETS` record: a lookup returning `none` for unknown keys. -/
def STYLE_PRESETS (s : String) : Option String :=
  if s == "default" then some ""
  else if s == "gameboy" then
    some ", Game Boy green monochrome palette, 4 shades of green"
  else if s == "nes" then
    some ", NES 8-bit style, limited color palette, scanlines"
  else if s == "commodore" then
    some ", Commodore 64 aesthetic, CRT monitor effect"
  else none

/-- `const { style = 'default' } = body` followed by
`STYLE_PRESETS[style] || ''`. -/
def styleModifier (style : Option String) : String :=
  ((STYLE_PRESETS (style.getD "default")).getD "")

/-- The prompt built from the entry text and the style modifier. -/
def buildPrompt (entryText : String) (style : Option String) : String :=
  entryText ++
    ", pixel art style, 8-bit graphics, retro gaming aesthetic, vibrant colors, nostalgic feel, clean pixel edges" ++
    styleModifier style

/-- Outcome of the AI retry loop: the normalized image buffer, the number of
backend attempts made, and the total backoff waited in milliseconds. -/
inductive GenResult where
  | success (buffer : List Nat) (attempts : Nat) (waitedMs : Nat)
  | failure (attempts : Nat) (waitedMs : Nat)
deriving DecidableEq, Repr

/-- `const maxRetries = 2` from `handleCloudGeneration`. -/
def maxRetries : Nat := 2

/-- The `while (retries <= maxRetries)` loop of `handleCloudGeneration`,
with the backend call abstracted as `ai : Nat → Option (List Nat)` (`ai r` is
the result of the attempt made while `retries = r`; `none` models a thrown
exception, `some buf` the normalized buffer).  Structural recursion is on
`retriesLeft = maxRetries - retries`: the source's
`retries++; if (retries > maxRetries) return 503` is the `retriesLeft = 0`
failure branch, and the source's backoff
`setTimeout(..., Math.pow(2, retries) * 1000)` after the increment is the
`2 ^ (retries + 1) * 1000` added to the accumulated wait. -/
def retryLoop (ai : Nat → Option (List Nat)) :
    Nat → Nat → Nat → GenResult
  | 0, retries, waited =>
    match ai retries with
    | some buf => .success buf (retries + 1) waited
    | none => .failure (retries + 1) waited
  | retriesLeft + 1, retries, waited =>
    match ai retries with
    | some buf => .success buf (retries + 1) waited
    | none => retryLoop ai retriesLeft (retries + 1)
        (waited + 2 ^ (retries + 1) * 1000)

/-- The whole retry phase of `handleCloudGeneration`, entered with
`retries = 0` and nothing yet waited. -/
def runGeneration (ai : Nat → Option (List Nat)) : GenResult :=
  retryLoop ai maxRetries 0 0

/-- `handleCloudGeneration` after authentication, in source order:
subscription lookup, weekly quota gate for free users (count over both
`image_generated` and `cloud_image_generated` rows), JSON body parse,
`entry_text` and `journal_id` presence checks, the AI retry loop, and on
success one `usage_tracking` insert with action `cloud_image_generated`. -/
def handleCloudGeneration (store : List SubscriptionRow)
    (ledger : List UsageEvent) (userId : String) (nowMs : Int)
    (body : Option CloudBody) (ai : Nat → Option (List Nat))
    (freshId : String) : HandlerResult :=
  let isPremium := subscriptionStatusOf store userId == some "active"
  if isPremium = false ∧
      3 ≤ countQualifyingSince ledger userId (nowMs - 604800000) then
    ⟨some "LIMIT_REACHED", 403, []⟩
  else
    match body with
    | none => ⟨some "INVALID_BODY", 400, []⟩
    | some b =>
      if strFalsy b.entryText then
        ⟨some "MISSING_TEXT", 400, []⟩
      else if strFalsy b.journalId then
        ⟨some "MISSING_JOURNAL_ID", 400, []⟩
      else
        match runGeneration ai with
        | .failure _ _ => ⟨some "AI_GENERATION_FAILED", 503, []⟩
        | .success _ _ _ =>
          ⟨none, 200, [⟨freshId, userId, "cloud_image_generated", nowMs⟩]⟩

/-- The `checkout.session.completed` payload fields the webhook reads:
`session.metadata?.user_id`, `session.metadata?.plan`, and
`session.subscription`. -/
structure CheckoutSession where
  metaUserId : Option String
  metaPlan : Option String
  subscription : Option String
deriving DecidableEq, Repr

/-- The `checkout.session.completed` branch of `handleStripeWebhook`:
`plan = session.metadata?.plan || 'premium_monthly'`; if both
`userId` and `subscriptionId` are truthy, the authoritative period end is
fetched from Stripe (passed here as `periodEndSec`, multiplied by 1000 as in
the source) and the `subscriptions` row with that `user_id` is updated to
`status = 'active'` with the new plan, subscription id and period end;
otherwise nothing is written. -/
def applyCheckoutCompleted (store : List SubscriptionRow)
    (sess : CheckoutSession) (periodEndSec : Int) (nowMs : Int) :
    List SubscriptionRow :=
  let plan := match sess.metaPlan with
    | some p => if p == "" then "premium_monthly" else p
    | none => "premium_monthly"
  match sess.metaUserId, sess.subscription with
  | some uid, some subId =>
    if uid ≠ "" ∧ subId ≠ "" then
      store.map (fun row =>
        if row.userId = uid then
          { row with
              stripeSubscriptionId := some subId
              plan := plan
              status := "active"
              currentPeriodEnd := some (periodEndSec * 1000)
              updatedAt := nowMs }
        else row)
    else store
  | _, _ => store

/-! ## Structural case analyses of the handlers -/

/-- Every outcome of `handleImageUpload` is one of its three response forms. -/
lemma imageUpload_result_cases (store : List SubscriptionRow)
    (ledger : List UsageEvent) (u : String) (t : Int) (form : UploadForm)
    (freshId : String) :
    handleImageUpload store ledger u t form freshId
        = ⟨some "LIMIT_REACHED", 403, []⟩ ∨
    handleImageUpload store ledger u t form freshId
        = ⟨some "MISSING_IMAGE", 400, []⟩ ∨
    handleImageUpload store ledger u t form freshId
        = ⟨none, 200, [⟨freshId, u, "image_generated", t⟩]⟩ := by
  simp only [handleImageUpload]
  split
  · exact Or.inl rfl
  · split
    · exact Or.inr (Or.inl rfl)
    · exact Or.inr (Or.inr rfl)

/-- Every outcome of `handleCloudGeneration` is one of its six response
forms. -/
lemma cloudGeneration_result_cases (store : List SubscriptionRow)
    (ledger : List UsageEvent) (u : String) (t : Int)
    (body : Option CloudBody) (ai : Nat → Option (List Nat))
    (freshId : String) :
    handleCloudGeneration store ledger u t body ai freshId
        = ⟨some "LIMIT_REACHED", 403, []⟩ ∨
    handleCloudGeneration store ledger u t body ai freshId
        = ⟨some "INVALID_BODY", 400, []⟩ ∨
    handleCloudGeneration store ledger u t body ai freshId
        = ⟨some "MISSING_TEXT", 400, []⟩ ∨
    handleCloudGeneration store ledger u t body ai freshId
        = ⟨some "MISSING_JOURNAL_ID", 400, []⟩ ∨
    handleCloudGeneration store ledger u t body ai freshId
        = ⟨some "AI_GENERATION_FAILED", 503, []⟩ ∨
    handleCloudGeneration store ledger u t body ai freshId
        = ⟨none, 200, [⟨freshId, u, "cloud_image_generated", t⟩]⟩ := by
  simp only [handleCloudGeneration]
  split
  · exact Or.inl rfl
  · split
    · exact Or.inr (Or.inl rfl)
    · split
      · exact Or.inr (Or.inr (Or.inl rfl))
      · split
        · exact Or.inr (Or.inr (Or.inr (Or.inl rfl)))
        · split
          · exact Or.inr (Or.inr (Or.inr (Or.inr (Or.inl rfl))))
          · exact Or.inr (Or.inr (Or.inr (Or.inr (Or.inr rfl))))

/-! ## Claim theorems -/

/-- C1: contrary to the claim (and to the repository README, which documents
`/api/images/generate-cloud` as Premium with a `PREMIUM_REQUIRED` error
code), `handleCloudGeneration` has no premium-only feature gate: an
authenticated free user (no `subscriptions` row) with zero usage events and
a valid body reaches the generation backend and gets a 200 success, not a
403 `PREMIUM_REQUIRED`. -/
theorem cloud_free_user_reaches_generation :
    handleCloudGeneration [] [] "u1" 604800000
        (some ⟨some "hello", some "j1", none⟩) (fun _ => some [0]) "f1"
      = ⟨none, 200, [⟨"f1", "u1", "cloud_image_generated", 604800000⟩]⟩ := by
  rfl

/-- C2 counterexample: a usage event timestamped exactly at
`now - 604800000` is NOT counted by the weekly queries (the SQL bound is
the strict `created_at > ?`), contradicting the claimed inclusive lower
bound: the claim requires these counts to be 1. -/
theorem window_boundary_event_included_cex :
    countImageGeneratedSince [⟨"e1", "u1", "image_generated", 0⟩] "u1"
        ((604800000 : Int) - 604800000) = 0 ∧
    countQualifyingSince [⟨"e1", "u1", "image_generated", 0⟩] "u1"
        ((604800000 : Int) - 604800000) = 0 := by
  constructor
  · decide
  · decide

/-- C2 (amended): the trailing-7-day lower bound is exclusive in every
usage count: an event with timestamp ≤ `now - 604800000` (in particular one
exactly at the bound, and one 1 ms before it) is excluded, and an event
with timestamp strictly greater than `now - 604800000` is included. -/
theorem window_boundary_exclusive (ledger : List UsageEvent) (u : String)
    (t : Int) (e : UsageEvent) (hu : e.userId = u)
    (ha : e.action = "image_generated") :
    (e.createdAt ≤ t - 604800000 →
      countImageGeneratedSince (e :: ledger) u (t - 604800000)
          = countImageGeneratedSince ledger u (t - 604800000) ∧
      countQualifyingSince (e :: ledger) u (t - 604800000)
          = countQualifyingSince ledger u (t - 604800000)) ∧
    (t - 604800000 < e.createdAt →
      countImageGeneratedSince (e :: ledger) u (t - 604800000)
          = countImageGeneratedSince ledger u (t - 604800000) + 1 ∧
      countQualifyingSince (e :: ledger) u (t - 604800000)
          = countQualifyingSince ledger u (t - 604800000) + 1) := by
  constructor
  · intro h
    have hb : decide (e.createdAt > t - 604800000) = false := by
      simp [not_lt.mpr h]
    constructor
    · simp [countImageGeneratedSince, List.filter_cons, hb]
    · simp [countQualifyingSince, List.filter_cons, hb]
  · intro h
    have hb : decide (e.createdAt > t - 604800000) = true := by
      simp [h]
    constructor
    · simp [countImageGeneratedSince, List.filter_cons, hb, hu, ha]
    · simp [countQualifyingSince, List.filter_cons, hb, hu, ha]

/-- C2 witness: an event 1 ms inside the window is counted. -/
theorem window_boundary_exclusive_witness :
    (604800001 : Int) - 604800000 < 1 + 1 ∧
    countImageGeneratedSince [⟨"e1", "u1", "image_generated", 2⟩] "u1"
        ((604800001 : Int) - 604800000)
      = countImageGeneratedSince [] "u1" ((604800001 : Int) - 604800000) + 1 :=
  ⟨by decide,
    ((window_boundary_exclusive [] "u1" 604800001
        ⟨"e1", "u1", "image_generated", 2⟩ rfl rfl).2 (by decide)).1⟩

/-- C3 counterexample: three in-window `cloud_image_generated` events are
counted by `handleCloudGeneration`'s query but not by the
`handleImageUpload` / `handleGetUserMe` query, and the upload of a free
user with those three events still succeeds — the claim requires the upload
gate to count them and deny with `LIMIT_REACHED`. -/
theorem upload_count_ignores_cloud_tag_cex :
    countImageGeneratedSince
        [⟨"e1", "u1", "cloud_image_generated", 2⟩,
         ⟨"e2", "u1", "cloud_image_generated", 2⟩,
         ⟨"e3", "u1", "cloud_image_generated", 2⟩] "u1"
        ((604800001 : Int) - 604800000) = 0 ∧
    countQualifyingSince
        [⟨"e1", "u1", "cloud_image_generated", 2⟩,
         ⟨"e2", "u1", "cloud_image_generated", 2⟩,
         ⟨"e3", "u1", "cloud_image_generated", 2⟩] "u1"
        ((604800001 : Int) - 604800000) = 3 ∧
    handleImageUpload []
        [⟨"e1", "u1", "cloud_image_generated", 2⟩,
         ⟨"e2", "u1", "cloud_image_generated", 2⟩,
         ⟨"e3", "u1", "cloud_image_generated", 2⟩] "u1" 604800001
        ⟨true, none⟩ "f1"
      = ⟨none, 200, [⟨"f1", "u1", "image_generated", 604800001⟩]⟩ := by
  refine ⟨by decide, by decide, ?_⟩
  rfl

/-- C3 (amended): only `handleCloudGeneration`'s quota query counts the
union of `image_generated` and `cloud_image_generated`; the query shared by
`handleImageUpload` and `handleGetUserMe` counts only `image_generated`, so
an in-window `cloud_image_generated` event raises the cloud gate's count by
one but leaves the upload gate's count and the reported `images_this_week`
unchanged. -/
theorem usage_tag_union_per_path (ledger : List UsageEvent) (u : String)
    (t : Int) (e : UsageEvent) (store : List SubscriptionRow)
    (hu : e.userId = u) (ha : e.action = "cloud_image_generated")
    (hw : t - 604800000 < e.createdAt) :
    countQualifyingSince (e :: ledger) u (t - 604800000)
        = countQualifyingSince ledger u (t - 604800000) + 1 ∧
    countImageGeneratedSince (e :: ledger) u (t - 604800000)
        = countImageGeneratedSince ledger u (t - 604800000) ∧
    userMeUsage store (e :: ledger) u t = userMeUsage store ledger u t := by
  have hb : decide (e.createdAt > t - 604800000) = true := by simp [hw]
  have hne : ("cloud_image_generated" == "image_generated") = false := by
    decide
  refine ⟨?_, ?_, ?_⟩
  · simp [countQualifyingSince, List.filter_cons, hb, hu, ha]
  · simp [countImageGeneratedSince, List.filter_cons, hb, hu, ha, hne]
  · simp [userMeUsage, countImageGeneratedSince, List.filter_cons, hb, hu,
      ha, hne]

/-- C3 witness: one in-window cloud event at a concrete instant. -/
theorem usage_tag_union_per_path_witness :
    countQualifyingSince [⟨"e1", "u1", "cloud_image_generated", 2⟩] "u1"
        ((604800001 : Int) - 604800000)
      = countQualifyingSince [] "u1" ((604800001 : Int) - 604800000) + 1 ∧
    countImageGeneratedSince [⟨"e1", "u1", "cloud_image_generated", 2⟩] "u1"
        ((604800001 : Int) - 604800000)
      = countImageGeneratedSince [] "u1" ((604800001 : Int) - 604800000) ∧
    userMeUsage [] [⟨"e1", "u1", "cloud_image_generated", 2⟩] "u1" 604800001
      = userMeUsage [] [] "u1" 604800001 :=
  usage_tag_union_per_path [] "u1" 604800001
    ⟨"e1", "u1", "cloud_image_generated", 2⟩ [] rfl rfl (by decide)

/-- C4: the generation phase of `handleCloudGeneration` makes at most 3
backend attempts (its result depends only on attempts 0, 1, 2); if the
backend raises on the first two attempts and succeeds on the third, the
handler returns the success after backoff waits of 2 s and 4 s (6000 ms in
total); if all three attempts raise, exactly 3 attempts are made and the
response is `AI_GENERATION_FAILED` with status 503. -/
theorem cloud_retry_policy (ai : Nat → Option (List Nat))
    (store : List SubscriptionRow) (ledger : List UsageEvent) (u : String)
    (t : Int) (b : CloudBody) (freshId : String)
    (hgate : subscriptionStatusOf store u = some "active" ∨
      countQualifyingSince ledger u (t - 604800000) < 3)
    (htext : strFalsy b.entryText = false)
    (hjid : strFalsy b.journalId = false) :
    (∀ ai2 : Nat → Option (List Nat), ai2 0 = ai 0 → ai2 1 = ai 1 →
      ai2 2 = ai 2 → runGeneration ai2 = runGeneration ai) ∧
    (∀ buf, ai 0 = none → ai 1 = none → ai 2 = some buf →
      runGeneration ai = .success buf 3 6000 ∧
      handleCloudGeneration store ledger u t (some b) ai freshId
        = ⟨none, 200, [⟨freshId, u, "cloud_image_generated", t⟩]⟩) ∧
    (ai 0 = none → ai 1 = none → ai 2 = none →
      runGeneration ai = .failure 3 6000 ∧
      handleCloudGeneration store ledger u t (some b) ai freshId
        = ⟨some "AI_GENERATION_FAILED", 503, []⟩) := by
  have hcond : ¬(((subscriptionStatusOf store u == some "active") = false) ∧
      3 ≤ countQualifyingSince ledger u (t - 604800000)) := by
    rcases hgate with h | h
    · intro hc
      rw [h] at hc
      simp at hc
    · intro hc
      exact absurd hc.2 (not_le.mpr h)
  have hhandler : handleCloudGeneration store ledger u t (some b) ai freshId
      = (match runGeneration ai with
        | .failure _ _ => ⟨some "AI_GENERATION_FAILED", 503, []⟩
        | .success _ _ _ =>
          ⟨none, 200, [⟨freshId, u, "cloud_image_generated", t⟩]⟩) := by
    simp only [handleCloudGeneration]
    rw [if_neg hcond]
    simp [htext, hjid]
  refine ⟨?_, ?_, ?_⟩
  · intro ai2 h0 h1 h2
    simp only [runGeneration, maxRetries, retryLoop, h0, h1, h2]
  · intro buf h0 h1 h2
    have hrun : runGeneration ai = .success buf 3 6000 := by
      simp only [runGeneration, maxRetries, retryLoop, h0, h1, h2]
      norm_num
    exact ⟨hrun, by rw [hhandler, hrun]⟩
  · intro h0 h1 h2
    have hrun : runGeneration ai = .failure 3 6000 := by
      simp only [runGeneration, maxRetries, retryLoop, h0, h1, h2]
      norm_num
    exact ⟨hrun, by rw [hhandler, hrun]⟩

/-- C4 witness: a backend failing twice then succeeding, for a free user
with empty ledger. -/
theorem cloud_retry_policy_witness :
    runGeneration (fun k => if k == 2 then some [7] else none)
      = .success [7] 3 6000 ∧
    handleCloudGeneration [] [] "u1" 604800001
        (some ⟨some "x", some "j", none⟩)
        (fun k => if k == 2 then some [7] else none) "f1"
      = ⟨none, 200, [⟨"f1", "u1", "cloud_image_generated", 604800001⟩]⟩ :=
  (cloud_retry_policy (fun k => if k == 2 then some [7] else none) [] []
    "u1" 604800001 ⟨some "x", some "j", none⟩ "f1" (Or.inr (by decide))
    (by decide) (by decide)).2.1 [7] rfl rfl rfl

/-- C5: `handleCloudGeneration` inserts no `usage_tracking` row on the
`AI_GENERATION_FAILED` path (so a subsequent identical request sees the
same qualifying count), and a row is appended only on the 200 success
path. -/
theorem cloud_no_usage_on_failure (store : List SubscriptionRow)
    (ledger : List UsageEvent) (u : String) (t : Int)
    (body : Option CloudBody) (ai : Nat → Option (List Nat))
    (freshId : String) :
    ((handleCloudGeneration store ledger u t body ai freshId).errorCode
        = some "AI_GENERATION_FAILED" →
      (handleCloudGeneration store ledger u t body ai freshId).appended = [] ∧
      countQualifyingSince
          ((handleCloudGeneration store ledger u t body ai freshId).appended
            ++ ledger) u (t - 604800000)
        = countQualifyingSince ledger u (t - 604800000)) ∧
    ((handleCloudGeneration store ledger u t body ai freshId).appended ≠ [] →
      (handleCloudGeneration store ledger u t body ai freshId).status = 200 ∧
      (handleCloudGeneration store ledger u t body ai freshId).errorCode
        = none) := by
  rcases cloudGeneration_result_cases store ledger u t body ai freshId with
    h | h | h | h | h | h <;> rw [h] <;> simp

/-- C5 witness: a backend that always fails, for a free user under quota
with a valid body. -/
theorem cloud_no_usage_on_failure_witness :
    (handleCloudGeneration [] [] "u1" 604800001
        (some ⟨some "x", some "j", none⟩) (fun _ => none) "f1").appended
      = [] ∧
    countQualifyingSince
        ((handleCloudGeneration [] [] "u1" 604800001
            (some ⟨some "x", some "j", none⟩) (fun _ => none) "f1").appended
          ++ []) "u1" ((604800001 : Int) - 604800000)
      = countQualifyingSince [] "u1" ((604800001 : Int) - 604800000) :=
  (cloud_no_usage_on_failure [] [] "u1" 604800001
    (some ⟨some "x", some "j", none⟩) (fun _ => none) "f1").1 rfl

/-- C6: in `handleImageUpload`, an active subscription bypasses the quota
check entirely: whatever the usage count, the request is allowed (never
`LIMIT_REACHED`; a well-formed upload returns the 200 success) and the
outcome does not depend on the ledger at all.  For any other subscription
state the request is denied with 403 `LIMIT_REACHED` exactly when the
weekly `image_generated` count is at least 3, and with count below 3 the
quota gate passes (a well-formed upload succeeds with one usage insert). -/
theorem upload_quota_gate (store : List SubscriptionRow)
    (ledger ledger2 : List UsageEvent) (u : String) (t : Int)
    (form : UploadForm) (freshId : String) :
    (subscriptionStatusOf store u = some "active" →
      handleImageUpload store ledger u t form freshId
        = handleImageUpload store ledger2 u t form freshId ∧
      (handleImageUpload store ledger u t form freshId).errorCode
        ≠ some "LIMIT_REACHED" ∧
      (form.hasImage = true →
        handleImageUpload store ledger u t form freshId
          = ⟨none, 200, [⟨freshId, u, "image_generated", t⟩]⟩)) ∧
    (subscriptionStatusOf store u ≠ some "active" →
      (3 ≤ countImageGeneratedSince ledger u (t - 604800000) →
        handleImageUpload store ledger u t form freshId
          = ⟨some "LIMIT_REACHED", 403, []⟩) ∧
      (countImageGeneratedSince ledger u (t - 604800000) < 3 →
        (handleImageUpload store ledger u t form freshId).errorCode
          ≠ some "LIMIT_REACHED" ∧
        (form.hasImage = true →
          handleImageUpload store ledger u t form freshId
            = ⟨none, 200, [⟨freshId, u, "image_generated", t⟩]⟩))) := by
  constructor
  · intro h
    have hcond : ¬(((subscriptionStatusOf store u == some "active") = false)
        ∧ 3 ≤ countImageGeneratedSince ledger u (t - 604800000)) := by
      intro hc
      rw [h] at hc
      simp at hc
    refine ⟨by simp [handleImageUpload, h], ?_, ?_⟩
    · simp only [handleImageUpload]
      rw [if_neg hcond]
      split <;> simp
    · intro himg
      simp only [handleImageUpload]
      rw [if_neg hcond]
      simp [himg]
  · intro h
    have hb : (subscriptionStatusOf store u == some "active") = false := by
      simpa using h
    constructor
    · intro hcount
      simp only [handleImageUpload]
      rw [if_pos ⟨hb, hcount⟩]
    · intro hcount
      have hcond : ¬(((subscriptionStatusOf store u == some "active") = false)
          ∧ 3 ≤ countImageGeneratedSince ledger u (t - 604800000)) := by
        intro hc
        exact absurd hc.2 (not_le.mpr hcount)
      constructor
      · simp only [handleImageUpload]
        rw [if_neg hcond]
        split <;> simp
      · intro himg
        simp only [handleImageUpload]
        rw [if_neg hcond]
        simp [himg]

/-- C6 witness: a premium user with 3 in-window events is still allowed
(200 success), while a free user at the same count is denied. -/
theorem upload_quota_gate_witness :
    handleImageUpload
        [⟨"s1", "u1", none, none, "premium_monthly", "active", none, 0, 0⟩]
        [⟨"e1", "u1", "image_generated", 2⟩,
         ⟨"e2", "u1", "image_generated", 2⟩,
         ⟨"e3", "u1", "image_generated", 2⟩] "u1" 604800001
        ⟨true, none⟩ "f1"
      = ⟨none, 200, [⟨"f1", "u1", "image_generated", 604800001⟩]⟩ ∧
    handleImageUpload []
        [⟨"e1", "u1", "image_generated", 2⟩,
         ⟨"e2", "u1", "image_generated", 2⟩,
         ⟨"e3", "u1", "image_generated", 2⟩] "u1" 604800001
        ⟨true, none⟩ "f1"
      = ⟨some "LIMIT_REACHED", 403, []⟩ :=
  ⟨((upload_quota_gate
      [⟨"s1", "u1", none, none, "premium_monthly", "active", none, 0, 0⟩]
      [⟨"e1", "u1", "image_generated", 2⟩,
       ⟨"e2", "u1", "image_generated", 2⟩,
       ⟨"e3", "u1", "image_generated", 2⟩] [] "u1" 604800001
      ⟨true, none⟩ "f1").1 rfl).2.2 rfl,
   ((upload_quota_gate []
      [⟨"e1", "u1", "image_generated", 2⟩,
       ⟨"e2", "u1", "image_generated", 2⟩,
       ⟨"e3", "u1", "image_generated", 2⟩] [] "u1" 604800001
      ⟨true, none⟩ "f1").2 (by decide)).1 (by decide)⟩

/-- C7 counterexample: a `checkout.session.completed` event whose metadata
lacks the plan identifier but carries a user id and a subscription id IS
applied: the stored row is rewritten to `status = 'active'` with the
defaulted plan `premium_monthly`, so the claim's "no subscription-state
write without a plan identifier" is false. -/
theorem checkout_missing_plan_still_writes_cex :
    applyCheckoutCompleted
        [⟨"s1", "u1", none, none, "free", "inactive", none, 0, 0⟩]
        ⟨some "u1", none, some "sub1"⟩ 100 5
      = [⟨"s1", "u1", none, some "sub1", "premium_monthly", "active",
          some 100000, 0, 5⟩] ∧
    applyCheckoutCompleted
        [⟨"s1", "u1", none, none, "free", "inactive", none, 0, 0⟩]
        ⟨some "u1", none, some "sub1"⟩ 100 5
      ≠ [⟨"s1", "u1", none, none, "free", "inactive", none, 0, 0⟩] := by
  constructor
  · rfl
  · decide

/-- C7 (amended): the checkout branch writes subscription state only when
the event carries both a (truthy) user identifier and a (truthy)
subscription identifier; a missing plan identifier does not block the
write — it defaults to `premium_monthly` on the updated row. -/
theorem checkout_gate_requires_user_and_subscription
    (store : List SubscriptionRow) (sess : CheckoutSession)
    (periodEndSec nowMs : Int) :
    (applyCheckoutCompleted store sess periodEndSec nowMs ≠ store →
      strTruthy sess.metaUserId = true ∧
      strTruthy sess.subscription = true) ∧
    (sess.metaPlan = none →
      ∀ row ∈ applyCheckoutCompleted store sess periodEndSec nowMs,
        row.userId = sess.metaUserId.getD "" →
        strTruthy sess.metaUserId = true →
        strTruthy sess.subscription = true →
        row.plan = "premium_monthly" ∧ row.status = "active") := by
  constructor
  · intro hne
    rcases hmu : sess.metaUserId with _ | uid
    · exact absurd (by simp [applyCheckoutCompleted, hmu]) hne
    rcases hs : sess.subscription with _ | subId
    · exact absurd (by simp [applyCheckoutCompleted, hmu, hs]) hne
    by_cases hc : uid ≠ "" ∧ subId ≠ ""
    · simp [strTruthy, strFalsy, hmu, hs, hc.1, hc.2]
    · exact absurd (by simp [applyCheckoutCompleted, hmu, hs, hc]) hne
  · intro hplan row hrow hrowid htu hts
    rcases hmu : sess.metaUserId with _ | uid
    · rw [hmu] at htu
      exact absurd htu (by simp [strTruthy, strFalsy])
    rcases hs : sess.subscription with _ | subId
    · rw [hs] at hts
      exact absurd hts (by simp [strTruthy, strFalsy])
    rw [hmu] at htu hrowid
    rw [hs] at hts
    have huid : uid ≠ "" := by
      simpa [strTruthy, strFalsy] using htu
    have hsub : subId ≠ "" := by
      simpa [strTruthy, strFalsy] using hts
    simp only [Option.getD_some] at hrowid
    simp only [applyCheckoutCompleted, hmu, hs, hplan] at hrow
    rw [if_pos ⟨huid, hsub⟩] at hrow
    rcases List.mem_map.mp hrow with ⟨orig, _, heq⟩
    by_cases ho : orig.userId = uid
    · rw [if_pos ho] at heq
      rw [← heq]
      exact ⟨rfl, rfl⟩
    · rw [if_neg ho] at heq
      rw [← heq] at hrowid
      exact absurd hrowid ho

/-- C7 witness: the no-plan event of the counterexample does carry a truthy
user id and subscription id, which is what gates the write. -/
theorem checkout_gate_requires_user_and_subscription_witness :
    strTruthy (some "u1") = true ∧ strTruthy (some "sub1") = true :=
  (checkout_gate_requires_user_and_subscription
      [⟨"s1", "u1", none, none, "free", "inactive", none, 0, 0⟩]
      ⟨some "u1", none, some "sub1"⟩ 100 5).1 (by decide)

/-- C8: applying the same `checkout.session.completed` event twice (same
clock, same Stripe-reported period end) yields the same subscription store
as applying it once, and the application never creates or removes rows. -/
theorem checkout_idempotent (store : List SubscriptionRow)
    (sess : CheckoutSession) (periodEndSec nowMs : Int) :
    applyCheckoutCompleted
        (applyCheckoutCompleted store sess periodEndSec nowMs) sess
        periodEndSec nowMs
      = applyCheckoutCompleted store sess periodEndSec nowMs ∧
    (applyCheckoutCompleted store sess periodEndSec nowMs).length
      = store.length := by
  rcases hmu : sess.metaUserId with _ | uid
  · simp [applyCheckoutCompleted, hmu]
  rcases hs : sess.subscription with _ | subId
  · simp [applyCheckoutCompleted, hmu, hs]
  by_cases hc : uid ≠ "" ∧ subId ≠ ""
  · constructor
    · simp only [applyCheckoutCompleted, hmu, hs]
      rw [if_pos hc, if_pos hc, List.map_map]
      apply List.map_congr_left
      intro a _
      by_cases ho : a.userId = uid
      · simp [ho]
      · simp [ho]
    · simp only [applyCheckoutCompleted, hmu, hs]
      rw [if_pos hc, List.length_map]
  · simp [applyCheckoutCompleted, hmu, hs, hc]

/-- C9: in `handleCloudGeneration` the subscription lookup and quota gate
run before any body parsing: a non-premium user at or over the weekly
limit gets 403 `LIMIT_REACHED` for every body — including an unparsable
one (`none`) or one missing `entry_text` or `journal_id` — and never
`INVALID_BODY`, `MISSING_TEXT` or `MISSING_JOURNAL_ID`. -/
theorem cloud_limit_precedes_body_validation (store : List SubscriptionRow)
    (ledger : List UsageEvent) (u : String) (t : Int)
    (body : Option CloudBody) (ai : Nat → Option (List Nat))
    (freshId : String)
    (hstat : subscriptionStatusOf store u ≠ some "active")
    (hcount : 3 ≤ countQualifyingSince ledger u (t - 604800000)) :
    handleCloudGeneration store ledger u t body ai freshId
      = ⟨some "LIMIT_REACHED", 403, []⟩ := by
  have hb : (subscriptionStatusOf store u == some "active") = false := by
    simpa using hstat
  simp only [handleCloudGeneration]
  rw [if_pos ⟨hb, hcount⟩]

/-- C9 witness: a free user at the limit sending an unparsable body. -/
theorem cloud_limit_precedes_body_validation_witness :
    handleCloudGeneration []
        [⟨"e1", "u1", "cloud_image_generated", 2⟩,
         ⟨"e2", "u1", "image_generated", 2⟩,
         ⟨"e3", "u1", "cloud_image_generated", 2⟩] "u1" 604800001 none
        (fun _ => none) "f1"
      = ⟨some "LIMIT_REACHED", 403, []⟩ :=
  cloud_limit_precedes_body_validation []
    [⟨"e1", "u1", "cloud_image_generated", 2⟩,
     ⟨"e2", "u1", "image_generated", 2⟩,
     ⟨"e3", "u1", "cloud_image_generated", 2⟩] "u1" 604800001 none
    (fun _ => none) "f1" (by decide) (by decide)

/-- C10: whatever the subscription state, a 200 from `handleImageUpload`
appends exactly one `usage_tracking` row with action `image_generated`,
and a 200 from `handleCloudGeneration` appends exactly one row with action
`cloud_image_generated`. -/
theorem success_appends_exactly_one_usage_event
    (store : List SubscriptionRow) (ledger : List UsageEvent) (u : String)
    (t : Int) (form : UploadForm) (body : Option CloudBody)
    (ai : Nat → Option (List Nat)) (freshId : String) :
    ((handleImageUpload store ledger u t form freshId).status = 200 →
      (handleImageUpload store ledger u t form freshId).appended
        = [⟨freshId, u, "image_generated", t⟩]) ∧
    ((handleCloudGeneration store ledger u t body ai freshId).status = 200 →
      (handleCloudGeneration store ledger u t body ai freshId).appended
        = [⟨freshId, u, "cloud_image_generated", t⟩]) := by
  constructor
  · rcases imageUpload_result_cases store ledger u t form freshId with
      h | h | h <;> rw [h] <;> simp
  · rcases cloudGeneration_result_cases store ledger u t body ai freshId with
      h | h | h | h | h | h <;> rw [h] <;> simp

/-- C10 witness: a premium user's successful upload and successful cloud
generation each record exactly one ledger row. -/
theorem success_appends_exactly_one_usage_event_witness :
    (handleImageUpload
        [⟨"s1", "u1", none, none, "premium_monthly", "active", none, 0, 0⟩]
        [] "u1" 5 ⟨true, none⟩ "f1").appended
      = [⟨"f1", "u1", "image_generated", 5⟩] ∧
    (handleCloudGeneration
        [⟨"s1", "u1", none, none, "premium_monthly", "active", none, 0, 0⟩]
        [] "u1" 5 (some ⟨some "x", some "j", none⟩)
        (fun _ => some [0]) "f2").appended
      = [⟨"f2", "u1", "cloud_image_generated", 5⟩] :=
  ⟨(success_appends_exactly_one_usage_event
      [⟨"s1", "u1", none, none, "premium_monthly", "active", none, 0, 0⟩]
      [] "u1" 5 ⟨true, none⟩ (some ⟨some "x", some "j", none⟩)
      (fun _ => some [0]) "f1").1 rfl,
   (success_appends_exactly_one_usage_event
      [⟨"s1", "u1", none, none, "premium_monthly", "active", none, 0, 0⟩]
      [] "u1" 5 ⟨true, none⟩ (some ⟨some "x", some "j", none⟩)
      (fun _ => some [0]) "f2").2 rfl⟩
